import Mathlib

/-!
Shallow embedding of `src/main.py` (repository `image_story`): a two-stage
orchestration pipeline.  Module-level startup reads the `OPENAI_API_KEY`
environment variable and raises when it is absent; `ImageStoryGenerator`
holds the configuration (`api_key`, `model`, `temperature`, `max_tokens`,
`cache`, `image_processing_prompt`); `process_image` issues one POST to the
chat-completions endpoint with the fixed vision prompt and the base64 data
URL of the image bytes, splits `choices[0].message.content` on `'\n'`, and
returns `[]` on any failure; `generate_story_from_image` first calls
`process_image`, interpolates the names, genre, desired length and the
Python `str()` rendering of the description list into an f-string prompt,
issues one POST, and returns `choices[0].message.content`, or the sentinel
`"Error generating story."` on any failure.

The HTTP backend is modelled by `HttpResult`: the single request of a stage
either fails in transport, or yields a status plus an optional parsed body
(`none` models a body that is not JSON or is missing any of the expected
`choices[0].message.content` fields).  Each embedded operation additionally
returns the list of outbound requests it issued and the final generator
state, so that request counts, request contents and state mutation are
provable facts.
-/

namespace ImageStory

/-! ### Base64 (Python `base64.b64encode`, RFC 4648 standard alphabet) -/

/-- The standard base64 alphabet used by `base64.b64encode`. -/
def base64Alphabet : List Char :=
  "ABCDEFGHIJKLMNOPQRSTUVWXYZabcdefghijklmnopqrstuvwxyz0123456789+/".data

/-- The base64 digit for a 6-bit value. -/
def b64Char (n : Nat) : Char := base64Alphabet.getD n '='

/-- Encode a byte list (each byte `< 256`) three bytes at a time, with `=`
padding, exactly as `base64.b64encode` does. -/
def b64EncodeChunks : List Nat → List Char
  | [] => []
  | [b0] =>
      [b64Char (b0 / 4), b64Char (b0 % 4 * 16), '=', '=']
  | [b0, b1] =>
      [b64Char (b0 / 4), b64Char (b0 % 4 * 16 + b1 / 16), b64Char (b1 % 16 * 4), '=']
  | b0 :: b1 :: b2 :: rest =>
      b64Char (b0 / 4) :: b64Char (b0 % 4 * 16 + b1 / 16) ::
        b64Char (b1 % 16 * 4 + b2 / 64) :: b64Char (b2 % 64) :: b64EncodeChunks rest

/-- `base64.b64encode(image_data).decode("utf-8")` from `process_image`. -/
def base64Encode (bytes : List Nat) : String := String.mk (b64EncodeChunks bytes)

/-! ### Python `str`/`repr` rendering (used by the f-string `{image_content}`) -/

/-- Hexadecimal digit, for `\xNN` escapes in Python string `repr`. -/
def pyHexDigit (n : Nat) : Char := "0123456789abcdef".data.getD n '0'

/-- Python `repr` escaping of one character, given the chosen quote
character.  Models CPython for ASCII and printable characters (the range
reachable in this development); CPython additionally escapes non-printable
non-ASCII code points. -/
def pyEscapeChar (quote : Char) (c : Char) : List Char :=
  if c = '\\' then ['\\', '\\']
  else if c = quote then ['\\', quote]
  else if c = '\n' then ['\\', 'n']
  else if c = '\r' then ['\\', 'r']
  else if c = '\t' then ['\\', 't']
  else if c.toNat < 32 ∨ c.toNat = 127 then
    ['\\', 'x', pyHexDigit (c.toNat / 16), pyHexDigit (c.toNat % 16)]
  else [c]

/-- Python `repr` quote choice: double quotes when the string holds a
single quote but no double quote, single quotes otherwise. -/
def pyReprQuote (s : String) : Char :=
  if s.data.contains '\'' ∧ ¬ s.data.contains '"' then '"' else '\''

/-- Python `repr` of a string. -/
def pyRepr (s : String) : String :=
  let q := pyReprQuote s
  String.mk (q :: (s.data.map (pyEscapeChar q)).flatten ++ [q])

/-- Python `str` of a list of strings, as produced by the f-string
`{image_content}`: `repr` of each element, joined by `", "`, in brackets. -/
def pyStrList (xs : List String) : String :=
  "[" ++ String.intercalate ", " (xs.map pyRepr) ++ "]"

/-- Python `str.split(sep)` with a one-character separator, on the
character list: splitting keeps empty pieces (`"a\n".split('\n')` is
`['a', '']`, `"".split('\n')` is `['']`). -/
def splitOnChar (sep : Char) : List Char → List (List Char)
  | [] => [[]]
  | c :: cs =>
      match splitOnChar sep cs with
      | [] => []
      | h :: t => if c = sep then [] :: h :: t else (c :: h) :: t

/-- `content.split('\n')` from `process_image`: every line of the content,
empty lines included, in order. -/
def pySplitLines (s : String) : List String :=
  (splitOnChar '\n' s.data).map String.mk

/-! ### HTTP model -/

/-- `choices[i].message` of a parsed completion body. -/
structure Message where
  content : String
deriving DecidableEq, Repr

/-- One element of the `choices` array of a parsed completion body. -/
structure Choice where
  message : Message
deriving DecidableEq, Repr

/-- Outcome of the single `requests.post` of a stage, as observed by the
calling code: the transport may raise (`transportError`), or a response
arrives with a status code and a body; `body = none` models a body that is
not JSON or is missing any of the `choices[0].message.content` fields. -/
inductive HttpResult where
  | transportError
  | response (status : Nat) (body : Option (List Choice))
deriving DecidableEq, Repr

/-- The content string the source extracts from a response, when no step
raises: `response.raise_for_status()` raises for statuses in `[400, 600)`,
then `result['choices'][0]['message']['content']` raises when the body did
not parse or `choices` is empty.  `none` means some step raised (the raise
is caught by the stage's `except` block). -/
def extractContent : HttpResult → Option String
  | .transportError => none
  | .response status body =>
      if 400 ≤ status ∧ status < 600 then none
      else
        match body with
        | none => none
        | some choices => choices.head?.map (fun c => c.message.content)

/-- An outbound POST to `https://api.openai.com/v1/chat/completions`.
`vision` is the multimodal request of `process_image` (fixed analysis
prompt plus base64 data URL); `story` is the text-only request of
`generate_story_from_image`. -/
inductive RequestBody where
  | vision (model promptText imageDataUrl : String) (maxTokens : Nat)
  | story (model prompt : String) (maxTokens : Nat) (temperature : Rat)
deriving DecidableEq, Repr

/-- The prompts of the story-stage requests in a request trace. -/
def storyPrompts (reqs : List RequestBody) : List String :=
  reqs.filterMap fun r =>
    match r with
    | .story _ p _ _ => some p
    | _ => none

/-- Number of vision-stage requests in a trace. -/
def countVision (reqs : List RequestBody) : Nat :=
  (reqs.filter fun r =>
    match r with
    | .vision _ _ _ _ => true
    | _ => false).length

/-- Number of story-stage requests in a trace. -/
def countStory (reqs : List RequestBody) : Nat :=
  (reqs.filter fun r =>
    match r with
    | .story _ _ _ _ => true
    | _ => false).length

/-! ### Startup (module level, `src/main.py` lines 10-14) -/

/-- `api_key = os.getenv('OPENAI_API_KEY')` followed by
`if api_key is None: raise ValueError(...)`: with the environment value as
input, startup either raises (modelled as `Except.error` with the
`ValueError` message) or proceeds with the credential. -/
def startup (env : Option String) : Except String String :=
  match env with
  | none => Except.error "API key not found. Make sure to set it in your environment."
  | some key => Except.ok key

/-! ### The generator -/

/-- The mutable attributes `ImageStoryGenerator.__init__` installs on
`self` (the `logger` carries no pipeline-relevant state and is omitted).
The Python cache is a `dict`; it is modelled as an association list. -/
structure ImageStoryGenerator where
  api_key : String
  model : String
  temperature : Rat
  max_tokens : Nat
  cache : List (String × List String)
  image_processing_prompt : String
deriving DecidableEq, Repr

/-- The fixed vision-stage analysis prompt set in `__init__` (triple-quoted
literal, indentation included). -/
def imageProcessingPromptText : String :=
  "\n        You are an expert in analyzing and describing visual imagery. Your task is to provide a detailed, rich, and descriptive analysis of the provided image that highlights its key features, elements, and any potential themes or moods it might evoke.\n\n        Instructions:\n        - Review the image and identify the key visual elements and features (e.g., colors, shapes, textures, composition, etc.).\n        - Describe the visual appearance of each person, including their clothing and any distinct characteristics.\n        - Return the description of each person in a list format.\n        "

/-- `ImageStoryGenerator.__init__`: the credential re-read from the
environment (the same value startup validated), model `"gpt-4o-mini"`,
temperature `0.5`, `max_tokens` 400, and an empty cache. -/
def ImageStoryGenerator.init (env_api_key : String) : ImageStoryGenerator :=
  { api_key := env_api_key
    model := "gpt-4o-mini"
    temperature := 1 / 2
    max_tokens := 400
    cache := []
    image_processing_prompt := imageProcessingPromptText }

/-- The `data:image/jpeg;base64,...` URL `process_image` embeds. -/
def dataUrl (image_data : List Nat) : String :=
  "data:image/jpeg;base64," ++ base64Encode image_data

/-- The payload of the single POST issued by `process_image`. -/
def visionRequest (g : ImageStoryGenerator) (image_data : List Nat) : RequestBody :=
  .vision g.model g.image_processing_prompt (dataUrl image_data) g.max_tokens

/-- `ImageStoryGenerator.process_image` (`src/main.py` lines 39-72): one
POST with the fixed prompt and the base64 data URL; on success the content
is split on `'\n'`; any raise inside the `try` block is caught and `[]` is
returned.  The result carries the descriptions, the issued requests, and
the generator state after the call (the method assigns no attribute, so
the state is returned unchanged). -/
def process_image (g : ImageStoryGenerator) (image_data : List Nat)
    (backend : HttpResult) :
    List String × List RequestBody × ImageStoryGenerator :=
  let req := visionRequest g image_data
  match extractContent backend with
  | some content => (pySplitLines content, [req], g)
  | none => ([], [req], g)

/-- Literal f-string segment before `{names_list}`. -/
def promptSeg1 : String :=
  "\n        Based on the following image description and the provided character names: "

/-- Literal f-string segment between `{names_list}` and `{genre}`. -/
def promptSeg2 : String :=
  ", create a short story in the first person that is engaging and creative for a "

/-- Literal f-string segment between `{genre}` and `{desired_length}`. -/
def promptSeg3 : String := " audience. The story should be no more than "

/-- Literal f-string segment between `{desired_length}` and
`{image_content}`. -/
def promptSeg4 : String := " words.\n\n        Image Description:\n        "

/-- Literal f-string segment after `{image_content}`. -/
def promptSeg5 : String := "\n        "

/-- The story-stage f-string prompt of `generate_story_from_image`
(`src/main.py` lines 80-85): `names_list`, `genre` and `desired_length`
interpolated verbatim, and `image_content` (a Python list of strings)
rendered by `str()`. -/
def story_prompt (names_list genre : String) (desired_length : Nat)
    (image_content : List String) : String :=
  promptSeg1 ++ names_list ++ promptSeg2 ++ genre ++ promptSeg3
    ++ toString desired_length ++ promptSeg4 ++ pyStrList image_content ++ promptSeg5

/-- `ImageStoryGenerator.generate_story_from_image` (`src/main.py` lines
74-107): calls `process_image` on the image (first backend outcome), joins
the names with `", "`, builds the story prompt, issues one POST (second
backend outcome), and returns `choices[0].message.content`, or the
sentinel `"Error generating story."` when any step of the story call
raises. -/
def generate_story_from_image (g : ImageStoryGenerator) (image_data : List Nat)
    (people_names : List String) (genre : String) (desired_length : Nat)
    (vision_backend story_backend : HttpResult) :
    String × List RequestBody × ImageStoryGenerator :=
  let v := process_image g image_data vision_backend
  let image_content := v.1
  let g1 := v.2.2
  let names_list := String.intercalate ", " people_names
  let prompt := story_prompt names_list genre desired_length image_content
  let req := RequestBody.story g1.model prompt g1.max_tokens g1.temperature
  match extractContent story_backend with
  | some story => (story, v.2.1 ++ [req], g1)
  | none => ("Error generating story.", v.2.1 ++ [req], g1)

/-- Spec-side notion (§4.1 of the spec, for the refinement comparison of
claim C1): the sequence of NON-EMPTY lines of the content string. -/
def nonEmptyLines (content : String) : List String :=
  (pySplitLines content).filter (fun l => l ≠ "")

/-- `hay` contains each of the given strings as a substring, in the given
order (each match strictly after the previous one ends). -/
def containsAllInOrder (hay : List Char) : List String → Prop
  | [] => True
  | n :: ns => ∃ pre rest, hay = pre ++ n.data ++ rest ∧ containsAllInOrder rest ns

/-! ### Helper lemmas -/

theorem go_data_containsAll (s : String) :
    ∀ (ns : List String) (acc : String) (post : List Char),
      ∃ rest, (String.intercalate.go acc s ns).data ++ post = acc.data ++ rest ∧
        containsAllInOrder rest ns := by
  intro ns
  induction ns with
  | nil => intro acc post; exact ⟨post, rfl, trivial⟩
  | cons a as ih =>
      intro acc post
      obtain ⟨rest, hrest, hall⟩ := ih (acc ++ s ++ a) post
      refine ⟨s.data ++ a.data ++ rest, ?_, s.data, rest, by simp [List.append_assoc], hall⟩
      have h : (String.intercalate.go (acc ++ s ++ a) s as).data ++ post =
          (acc ++ s ++ a).data ++ rest := hrest
      simp only [String.data_append, List.append_assoc] at h ⊢
      exact h

/-- The `", ".join(people_names)` string contains every name, in order,
even when surrounded by arbitrary context. -/
theorem intercalate_containsAll (s : String) (ns : List String) (pre post : List Char) :
    containsAllInOrder (pre ++ (String.intercalate s ns).data ++ post) ns := by
  cases ns with
  | nil => trivial
  | cons a as =>
      obtain ⟨rest, hrest, hall⟩ := go_data_containsAll s as a post
      refine ⟨pre, rest, ?_, hall⟩
      have h : String.intercalate s (a :: as) = String.intercalate.go a s as := rfl
      rw [h]
      simp only [List.append_assoc]
      rw [hrest]

/-- Ordered containment gives plain substring containment of each name. -/
theorem containsAllInOrder_mem {hay : List Char} :
    ∀ {ns : List String}, containsAllInOrder hay ns → ∀ n ∈ ns, n.data <:+: hay := by
  intro ns
  induction ns generalizing hay with
  | nil => intro _ n hn; cases hn
  | cons a as ih =>
      rintro ⟨pre, rest, rfl, hall⟩ n hn
      rcases List.mem_cons.mp hn with h | h
      · subst h; exact ⟨pre, rest, rfl⟩
      · obtain ⟨u, v, huv⟩ := ih hall n h
        exact ⟨pre ++ a.data ++ u, v, by rw [← huv]; simp [List.append_assoc]⟩

/-! ### Claim theorems -/

/-- C2: for every image payload (the zero-byte payload included) and every
failing backend behaviour — transport failure, non-success HTTP status, or
a response body missing the expected fields — `process_image` does not
propagate the raise (the `except` block catches it; totality of the
embedding) and returns the empty sequence. -/
theorem describe_failure_returns_empty (g : ImageStoryGenerator)
    (image_data : List Nat) (backend : HttpResult)
    (hfail : extractContent backend = none) :
    (process_image g image_data backend).1 = [] := by
  simp [process_image, hfail]

/-- Witness for C2: a zero-byte payload with a transport failure, a 500
status, and a malformed body each yield the empty sequence. -/
theorem describe_failure_returns_empty_witness :
    (process_image (ImageStoryGenerator.init "k") [] HttpResult.transportError).1 = [] ∧
    (process_image (ImageStoryGenerator.init "k") []
        (HttpResult.response 500 (some [⟨⟨"irrelevant"⟩⟩]))).1 = [] ∧
    (process_image (ImageStoryGenerator.init "k") [] (HttpResult.response 200 none)).1 = [] :=
  ⟨describe_failure_returns_empty _ _ _ rfl,
   describe_failure_returns_empty _ _ _ (by decide),
   describe_failure_returns_empty _ _ _ (by decide)⟩

/-- C3: for every input and every failing story-stage backend behaviour,
`generate_story_from_image` does not propagate the raise and returns the
fixed sentinel string `"Error generating story."` (the success code path
instead returns the extracted content). -/
theorem compose_failure_returns_sentinel (g : ImageStoryGenerator)
    (image_data : List Nat) (people_names : List String) (genre : String)
    (desired_length : Nat) (vision_backend story_backend : HttpResult)
    (hfail : extractContent story_backend = none) :
    (generate_story_from_image g image_data people_names genre desired_length
        vision_backend story_backend).1 = "Error generating story." := by
  simp [generate_story_from_image, hfail]

/-- Witness for C3: transport failure, 500 status and malformed body on
the story stage each yield the sentinel. -/
theorem compose_failure_returns_sentinel_witness :
    (generate_story_from_image (ImageStoryGenerator.init "k") [] ["Alex"] "mystery" 150
        (HttpResult.response 200 (some [⟨⟨"A tall man"⟩⟩]))
        HttpResult.transportError).1 = "Error generating story." ∧
    (generate_story_from_image (ImageStoryGenerator.init "k") [] ["Alex"] "mystery" 150
        (HttpResult.response 200 (some [⟨⟨"A tall man"⟩⟩]))
        (HttpResult.response 500 (some [⟨⟨"denied"⟩⟩]))).1 = "Error generating story." ∧
    (generate_story_from_image (ImageStoryGenerator.init "k") [] ["Alex"] "mystery" 150
        (HttpResult.response 200 (some [⟨⟨"A tall man"⟩⟩]))
        (HttpResult.response 200 none)).1 = "Error generating story." :=
  ⟨compose_failure_returns_sentinel _ _ _ _ _ _ _ rfl,
   compose_failure_returns_sentinel _ _ _ _ _ _ _ (by decide),
   compose_failure_returns_sentinel _ _ _ _ _ _ _ (by decide)⟩

/-- C5: every `process_image` invocation issues exactly one request (the
vision request), and every `generate_story_from_image` invocation issues
exactly one vision-stage and exactly one story-stage request, under every
backend outcome — no retries. -/
theorem single_request_per_stage (g : ImageStoryGenerator) (image_data : List Nat)
    (people_names : List String) (genre : String) (desired_length : Nat)
    (backend vision_backend story_backend : HttpResult) :
    (process_image g image_data backend).2.1 = [visionRequest g image_data] ∧
    countVision (process_image g image_data backend).2.1 = 1 ∧
    countStory (process_image g image_data backend).2.1 = 0 ∧
    countVision (generate_story_from_image g image_data people_names genre desired_length
        vision_backend story_backend).2.1 = 1 ∧
    countStory (generate_story_from_image g image_data people_names genre desired_length
        vision_backend story_backend).2.1 = 1 := by
  cases hb : extractContent backend <;>
    cases hv : extractContent vision_backend <;>
    cases hs : extractContent story_backend <;>
      simp [process_image, generate_story_from_image, countVision, countStory,
        visionRequest, hb, hv, hs]

/-- C6: on a successful story-stage response, `generate_story_from_image`
returns exactly `choices[0].message.content`, unmodified, for every list
of further choices (they are ignored). -/
theorem compose_returns_first_choice (g : ImageStoryGenerator) (image_data : List Nat)
    (people_names : List String) (genre : String) (desired_length : Nat)
    (vision_backend : HttpResult) (status : Nat) (content : String) (rest : List Choice)
    (hstatus : ¬ (400 ≤ status ∧ status < 600)) :
    (generate_story_from_image g image_data people_names genre desired_length vision_backend
        (HttpResult.response status (some (⟨⟨content⟩⟩ :: rest)))).1 = content := by
  simp [generate_story_from_image, extractContent, hstatus]

/-- Witness for C6: a 200 response with two choices returns the first
content string exactly; the second choice is ignored. -/
theorem compose_returns_first_choice_witness :
    (generate_story_from_image (ImageStoryGenerator.init "k") [] ["Alex", "Jamie"]
        "mystery" 150 HttpResult.transportError
        (HttpResult.response 200
          (some [⟨⟨"Alex crept through the fog..."⟩⟩, ⟨⟨"ignored second choice"⟩⟩]))).1
      = "Alex crept through the fog..." :=
  compose_returns_first_choice _ _ _ _ _ _ _ _ _ (by decide)

/-- C7: `process_image` mutates no generator state, so a second call with
the same image bytes against the same deterministic backend returns the
identical description sequence (indeed the identical full outcome). -/
theorem describe_idempotent (g : ImageStoryGenerator) (image_data : List Nat)
    (backend : HttpResult) :
    (process_image g image_data backend).2.2 = g ∧
    process_image ((process_image g image_data backend).2.2) image_data backend
      = process_image g image_data backend := by
  cases hb : extractContent backend <;> simp [process_image, hb]

/-- C8: module startup raises (`ValueError`) exactly when the credential
is absent from the environment, before any pipeline component exists; with
a credential present it proceeds with that credential. -/
theorem startup_requires_credential :
    startup none
      = Except.error "API key not found. Make sure to set it in your environment." ∧
    ∀ key, startup (some key) = Except.ok key :=
  ⟨rfl, fun _ => rfl⟩

/-- C9: the cache is initialised empty, neither operation ever writes it,
and no result of either operation depends on it. -/
theorem cache_is_dead_state (key : String) (g : ImageStoryGenerator)
    (c c' : List (String × List String)) (image_data : List Nat)
    (people_names : List String) (genre : String) (desired_length : Nat)
    (backend vision_backend story_backend : HttpResult) :
    (ImageStoryGenerator.init key).cache = [] ∧
    ((process_image g image_data backend).2.2).cache = g.cache ∧
    ((generate_story_from_image g image_data people_names genre desired_length
        vision_backend story_backend).2.2).cache = g.cache ∧
    (process_image { g with cache := c } image_data backend).1
      = (process_image { g with cache := c' } image_data backend).1 ∧
    (generate_story_from_image { g with cache := c } image_data people_names genre
        desired_length vision_backend story_backend).1
      = (generate_story_from_image { g with cache := c' } image_data people_names genre
        desired_length vision_backend story_backend).1 := by
  cases hb : extractContent backend <;>
    cases hv : extractContent vision_backend <;>
    cases hs : extractContent story_backend <;>
      simp [process_image, generate_story_from_image, ImageStoryGenerator.init,
        hb, hv, hs]

/-- C10: when the vision stage fails (empty description sequence),
`generate_story_from_image` does not short-circuit: it still issues the
single story-stage request, whose prompt is built from the empty
description list, and on story-stage success it returns that story
string. -/
theorem compose_proceeds_after_vision_failure (g : ImageStoryGenerator)
    (image_data : List Nat) (people_names : List String) (genre : String)
    (desired_length : Nat) (vision_backend story_backend : HttpResult) (story : String)
    (hvision : extractContent vision_backend = none)
    (hstory : extractContent story_backend = some story) :
    (generate_story_from_image g image_data people_names genre desired_length
        vision_backend story_backend).1 = story ∧
    storyPrompts (generate_story_from_image g image_data people_names genre desired_length
        vision_backend story_backend).2.1
      = [story_prompt (String.intercalate ", " people_names) genre desired_length []] ∧
    countStory (generate_story_from_image g image_data people_names genre desired_length
        vision_backend story_backend).2.1 = 1 := by
  simp [generate_story_from_image, process_image, storyPrompts, countStory,
    visionRequest, hvision, hstory]

/-- Witness for C10: vision transport failure plus a successful story
response returns the story, with the prompt built from `[]`. -/
theorem compose_proceeds_after_vision_failure_witness :
    (generate_story_from_image (ImageStoryGenerator.init "k") [] ["Alex"] "mystery" 150
        HttpResult.transportError (HttpResult.response 200 (some [⟨⟨"a story"⟩⟩]))).1
      = "a story" ∧
    storyPrompts (generate_story_from_image (ImageStoryGenerator.init "k") [] ["Alex"]
        "mystery" 150 HttpResult.transportError
        (HttpResult.response 200 (some [⟨⟨"a story"⟩⟩]))).2.1
      = [story_prompt (String.intercalate ", " ["Alex"]) "mystery" 150 []] ∧
    countStory (generate_story_from_image (ImageStoryGenerator.init "k") [] ["Alex"]
        "mystery" 150 HttpResult.transportError
        (HttpResult.response 200 (some [⟨⟨"a story"⟩⟩]))).2.1 = 1 :=
  compose_proceeds_after_vision_failure _ _ _ _ _ _ _ _ rfl (by decide)

/-- Counterexample to C1 as stated: for the successful response whose
content is `"A tall man\n"` (one non-empty line followed by a trailing
newline), `process_image` returns `["A tall man", ""]` — the `'\n'` split
keeps empty lines — which is not the sequence of non-empty lines
`["A tall man"]`. -/
theorem describe_keeps_empty_lines_counterexample :
    (process_image (ImageStoryGenerator.init "k") []
        (HttpResult.response 200 (some [⟨⟨"A tall man\n"⟩⟩]))).1 = ["A tall man", ""] ∧
    nonEmptyLines "A tall man\n" = ["A tall man"] ∧
    (["A tall man", ""] : List String) ≠ ["A tall man"] :=
  ⟨by decide, by decide, by decide⟩

/-- C1 (amended): on every successful response whose body parses with a
`choices[0].message.content` string, `process_image` returns the full
sequence of lines obtained by splitting the content on `'\n'` — empty
lines included — in order; in particular, when every line of the content
is non-empty, this is exactly the sequence of non-empty lines, with one
entry per newline-separated line. -/
theorem describe_returns_split_lines (g : ImageStoryGenerator) (image_data : List Nat)
    (backend : HttpResult) (content : String)
    (hsucc : extractContent backend = some content) :
    (process_image g image_data backend).1 = pySplitLines content ∧
      ((∀ l ∈ pySplitLines content, l ≠ "") →
        (process_image g image_data backend).1 = nonEmptyLines content) := by
  refine ⟨by simp [process_image, hsucc], fun hne => ?_⟩
  have hfilter : (pySplitLines content).filter (fun l => l ≠ "") = pySplitLines content :=
    List.filter_eq_self.mpr (fun a ha => by simpa using hne a ha)
  simp only [ne_eq, decide_not] at hfilter
  simp [process_image, hsucc, nonEmptyLines, hfilter]

/-- Witness for C1 (amended): the two-line content from the spec's
end-to-end scenario yields exactly its two lines, which coincide with its
non-empty lines. -/
theorem describe_returns_split_lines_witness :
    (process_image (ImageStoryGenerator.init "k") []
        (HttpResult.response 200 (some [⟨⟨"A tall man\nA woman"⟩⟩]))).1
      = pySplitLines "A tall man\nA woman" ∧
    (process_image (ImageStoryGenerator.init "k") []
        (HttpResult.response 200 (some [⟨⟨"A tall man\nA woman"⟩⟩]))).1
      = nonEmptyLines "A tall man\nA woman" := by
  have h := describe_returns_split_lines (ImageStoryGenerator.init "k") []
    (HttpResult.response 200 (some [⟨⟨"A tall man\nA woman"⟩⟩])) "A tall man\nA woman"
    (by decide)
  exact ⟨h.1, h.2 (by decide)⟩

set_option maxRecDepth 16384

/-- Counterexample to C4 as stated: for a vision-stage description
containing a backslash (content `"a\b"`, a single line), the story prompt
embeds the Python `str()` rendering `['a\\b']`, so the raw vision-stage
description text `"a\b"` is NOT a substring of the outbound prompt. -/
theorem compose_prompt_escapes_descriptions_counterexample :
    storyPrompts (generate_story_from_image (ImageStoryGenerator.init "k") [] ["Alex"]
        "mystery" 150 (HttpResult.response 200 (some [⟨⟨"a\\b"⟩⟩]))
        (HttpResult.response 200 (some [⟨⟨"S"⟩⟩]))).2.1
      = [story_prompt "Alex" "mystery" 150 ["a\\b"]] ∧
    ¬ ("a\\b".data <:+: (story_prompt "Alex" "mystery" 150 ["a\\b"]).data) :=
  ⟨by decide, by decide⟩

/-- C4 (amended): the outbound story-stage prompt contains every supplied
name as an exact substring in the given order (through the `", "` join),
the genre string, the decimal rendering of the length, and the Python
`str()` rendering of the vision-stage description list (descriptions
appear quoted, with backslashes and quote characters escaped) — rather
than the raw vision-stage text. -/
theorem compose_prompt_contents (g : ImageStoryGenerator) (image_data : List Nat)
    (people_names : List String) (genre : String) (desired_length : Nat)
    (vision_backend story_backend : HttpResult)
    (hnames : people_names ≠ []) :
    storyPrompts (generate_story_from_image g image_data people_names genre desired_length
        vision_backend story_backend).2.1
      = [story_prompt (String.intercalate ", " people_names) genre desired_length
          (process_image g image_data vision_backend).1] ∧
    containsAllInOrder
      (story_prompt (String.intercalate ", " people_names) genre desired_length
        (process_image g image_data vision_backend).1).data people_names ∧
    genre.data <:+:
      (story_prompt (String.intercalate ", " people_names) genre desired_length
        (process_image g image_data vision_backend).1).data ∧
    (toString desired_length).data <:+:
      (story_prompt (String.intercalate ", " people_names) genre desired_length
        (process_image g image_data vision_backend).1).data ∧
    (pyStrList (process_image g image_data vision_backend).1).data <:+:
      (story_prompt (String.intercalate ", " people_names) genre desired_length
        (process_image g image_data vision_backend).1).data := by
  refine ⟨?_, ?_, ?_, ?_, ?_⟩
  · cases hv : extractContent vision_backend <;>
      cases hs : extractContent story_backend <;>
        simp [generate_story_from_image, process_image, storyPrompts, visionRequest, hv, hs]
  · simpa [story_prompt, String.data_append, List.append_assoc] using
      intercalate_containsAll ", " people_names promptSeg1.data
        (promptSeg2.data ++ genre.data ++ promptSeg3.data
          ++ (toString desired_length).data ++ promptSeg4.data
          ++ (pyStrList (process_image g image_data vision_backend).1).data
          ++ promptSeg5.data)
  · exact ⟨promptSeg1.data ++ (String.intercalate ", " people_names).data ++ promptSeg2.data,
      promptSeg3.data ++ (toString desired_length).data ++ promptSeg4.data
        ++ (pyStrList (process_image g image_data vision_backend).1).data ++ promptSeg5.data,
      by simp [story_prompt, String.data_append, List.append_assoc]⟩
  · exact ⟨promptSeg1.data ++ (String.intercalate ", " people_names).data ++ promptSeg2.data
        ++ genre.data ++ promptSeg3.data,
      promptSeg4.data ++ (pyStrList (process_image g image_data vision_backend).1).data
        ++ promptSeg5.data,
      by simp [story_prompt, String.data_append, List.append_assoc]⟩
  · exact ⟨promptSeg1.data ++ (String.intercalate ", " people_names).data ++ promptSeg2.data
        ++ genre.data ++ promptSeg3.data ++ (toString desired_length).data ++ promptSeg4.data,
      promptSeg5.data,
      by simp [story_prompt, String.data_append, List.append_assoc]⟩

/-- Witness for C4 (amended): the end-to-end scenario of the spec — names
`["Alex", "Jamie"]`, genre `"mystery"`, length `150`, vision content
`"A tall man\nA woman"`. -/
theorem compose_prompt_contents_witness :
    storyPrompts (generate_story_from_image (ImageStoryGenerator.init "k") []
        ["Alex", "Jamie"] "mystery" 150
        (HttpResult.response 200 (some [⟨⟨"A tall man\nA woman"⟩⟩]))
        (HttpResult.response 200 (some [⟨⟨"S"⟩⟩]))).2.1
      = [story_prompt (String.intercalate ", " ["Alex", "Jamie"]) "mystery" 150
          (process_image (ImageStoryGenerator.init "k") []
            (HttpResult.response 200 (some [⟨⟨"A tall man\nA woman"⟩⟩]))).1] ∧
    containsAllInOrder
      (story_prompt (String.intercalate ", " ["Alex", "Jamie"]) "mystery" 150
        (process_image (ImageStoryGenerator.init "k") []
          (HttpResult.response 200 (some [⟨⟨"A tall man\nA woman"⟩⟩]))).1).data
      ["Alex", "Jamie"] ∧
    ("mystery").data <:+:
      (story_prompt (String.intercalate ", " ["Alex", "Jamie"]) "mystery" 150
        (process_image (ImageStoryGenerator.init "k") []
          (HttpResult.response 200 (some [⟨⟨"A tall man\nA woman"⟩⟩]))).1).data ∧
    (toString 150).data <:+:
      (story_prompt (String.intercalate ", " ["Alex", "Jamie"]) "mystery" 150
        (process_image (ImageStoryGenerator.init "k") []
          (HttpResult.response 200 (some [⟨⟨"A tall man\nA woman"⟩⟩]))).1).data ∧
    (pyStrList (process_image (ImageStoryGenerator.init "k") []
        (HttpResult.response 200 (some [⟨⟨"A tall man\nA woman"⟩⟩]))).1).data <:+:
      (story_prompt (String.intercalate ", " ["Alex", "Jamie"]) "mystery" 150
        (process_image (ImageStoryGenerator.init "k") []
          (HttpResult.response 200 (some [⟨⟨"A tall man\nA woman"⟩⟩]))).1).data :=
  compose_prompt_contents (ImageStoryGenerator.init "k") [] ["Alex", "Jamie"] "mystery" 150
    (HttpResult.response 200 (some [⟨⟨"A tall man\nA woman"⟩⟩]))
    (HttpResult.response 200 (some [⟨⟨"S"⟩⟩])) (by decide)

end ImageStory
